import Mathlib

/-!
Verification of the maplibre4UAV tile server (`src/titiler/main.py`).

The server is a thin HTTP layer over an external raster library
(`rio_tiler.io.Reader`).  We embed the Python handlers as Lean functions:

* the filesystem is a list of existing files, each an absolute path given
  as its list of components (in OS-resolved, `..`-free form); the list
  order models filesystem enumeration order (the order `Path.glob` yields);
* the external raster library (`Reader`, `src.info()`, `src.tile(...)`,
  `img.render(...)`) is an oracle structure `RasterEnv`, with exceptions
  modelled by `Except`;
* each FastAPI handler becomes a Lean function from the filesystem, the
  oracle and the request parameters to an `HResp` (or `Except HResp json`
  for the JSON endpoints, where `.error` is an early `Response` return).
-/

/-- A filesystem path as its list of components (absolute, from `/`). -/
abbrev FPath := List String

/-- OS-level path resolution of `.` and `..` components, as performed by the
kernel when a path such as `/data/../x.vrt` is stat'ed: `.` is dropped and
`..` removes the preceding component (at the root it is a no-op). -/
def resolvePath (p : FPath) : FPath :=
  p.foldl
    (fun acc c =>
      if c = "." then acc
      else if c = ".." then acc.dropLast
      else acc ++ [c])
    []

/-- The state of the data directory tree: the list of files that exist,
in filesystem enumeration order.  Paths are stored in resolved form
(no `.` / `..` components), as the OS reports them. -/
structure FS where
  files : List FPath
deriving Repr, DecidableEq

/-- Model of `Path.exists()`: the OS resolves `..` components and checks the result. -/
def FS.hasFile (fs : FS) (p : FPath) : Bool :=
  fs.files.contains (resolvePath p)

/-- Well-formedness of the modelled filesystem: stored paths are already in
resolved form (true of real absolute paths reported by the OS). -/
def FS.wf (fs : FS) : Bool :=
  fs.files.all (fun p => resolvePath p == p)

/-- Tests that `p` is strictly below the directory `root`. -/
def underDir (root p : FPath) : Bool :=
  p.take root.length == root && decide (root.length < p.length)

/-- Scans for the closing `]` of an fnmatch character class, returning
the class body and the remaining pattern, or `none` when unclosed. -/
def breakRBracket : List Char → Option (List Char × List Char)
  | [] => none
  | ']' :: rest => some ([], rest)
  | c :: rest =>
    match breakRBracket rest with
    | none => none
    | some (body, r) => some (c :: body, r)

/-- Parses the tail of a pattern after `[` as fnmatch does
(`fnmatch.translate`): an initial `!` negates the class, a `]` directly
after it is a literal member, and when no closing `]` follows the `[` is
treated as a literal character (`none`). -/
def splitClass (cs : List Char) : Option (Bool × List Char × List Char) :=
  let neg := cs.head? == some '!'
  let cs1 := if neg then cs.tail else cs
  match cs1 with
  | ']' :: rest =>
    match breakRBracket rest with
    | none => none
    | some (body, r) => some (neg, ']' :: body, r)
  | _ =>
    match breakRBracket cs1 with
    | none => none
    | some (body, r) => some (neg, body, r)

/-- Membership of `c` in a character-class body, with `a-b` ranges as in
the regex `fnmatch.translate` produces; a `-` that cannot form a range
(first or last in the body) is a literal member. -/
def inClass : List Char → Char → Bool
  | a :: '-' :: b :: rest, c => (a ≤ c && c ≤ b) || inClass rest c
  | a :: rest, c => a == c || inClass rest c
  | [], _ => false

/-- One step of fnmatch pattern matching; the fuel only bounds the
recursion depth (every step drops at least one pattern or name
character, so `pattern.length + name.length + 1` always suffices). -/
def fnmatchFuel : Nat → List Char → List Char → Bool
  | 0, _, _ => false
  | _ + 1, [], name => name.isEmpty
  | fuel + 1, '*' :: ps, name =>
    fnmatchFuel fuel ps name ||
      (match name with
       | [] => false
       | _ :: cs => fnmatchFuel fuel ('*' :: ps) cs)
  | fuel + 1, '?' :: ps, name =>
    (match name with
     | [] => false
     | _ :: cs => fnmatchFuel fuel ps cs)
  | fuel + 1, '[' :: ps, name =>
    (match splitClass ps with
     | none =>
       match name with
       | [] => false
       | c :: cs => c == '[' && fnmatchFuel fuel ps cs
     | some (neg, body, rest) =>
       match name with
       | [] => false
       | c :: cs => (inClass body c != neg) && fnmatchFuel fuel rest cs)
  | fuel + 1, p :: ps, name =>
    (match name with
     | [] => false
     | c :: cs => p == c && fnmatchFuel fuel ps cs)

/-- Model of `fnmatch.fnmatchcase(name, pattern)`, the per-component
matching `pathlib.Path.glob` performs (case-sensitive on Linux): `*`
matches any character sequence, `?` any single character, `[...]` a
character class with `!` negation and `-` ranges, an unclosed `[` is a
literal, and every other character matches itself. -/
def fnmatchChars (pattern name : List Char) : Bool :=
  fnmatchFuel (pattern.length + name.length + 1) pattern name

/-- Model of `DATA_DIR.glob(f"**/{pattern}")`: every existing file
strictly under `root` whose final component fnmatch-matches `pattern`,
in enumeration order.  fnmatch metacharacters interpolated into the
pattern are interpreted as wildcards. -/
def globNamed (fs : FS) (root : FPath) (pattern : String) : List FPath :=
  fs.files.filter (fun p =>
    underDir root p && fnmatchChars pattern.toList (p.getLastD "").toList)

/-- Model of `DATA_DIR.glob("**/*.vrt")`: every existing file strictly
under `root` whose final component matches `*.vrt`, in enumeration
order. -/
def globVrts (fs : FS) (root : FPath) : List FPath :=
  globNamed fs root "*.vrt"

/-- Model of `pathlib.PurePath.stem` (CPython: `name[:i]` for
`i = name.rfind(".")` when `0 < i < len(name) - 1`, else `name` itself,
so a leading-dot name such as `.vrt` keeps its dot). -/
def stem (s : String) : String :=
  let cs := s.toList
  let suffixRev := cs.reverse.takeWhile (fun c => c ≠ '.')
  if suffixRev.length = cs.length then s
  else
    let i := cs.length - suffixRev.length - 1
    if 0 < i ∧ i < cs.length - 1 then String.mk (cs.take i) else s

/-- The `stem` of a path's final component (`vrt.stem` in the source). -/
def pathStem (p : FPath) : String :=
  stem (p.getLastD "")

/-- Model of `str(vrt.relative_to(DATA_DIR))` for a path under the data dir. -/
def relPathStr (root : FPath) (p : FPath) : String :=
  String.intercalate "/" (p.drop root.length)

/-- The dataset-name resolution shared by the four name-based endpoints
(`main.py` lines 50-55, 76-81, 100-105, 131-136):

    vrt_path = DATA_DIR / f"{dataset}.vrt"
    if not vrt_path.exists():
        vrt_path = next(DATA_DIR.glob(f"**/{dataset}.vrt"), None)
    if not vrt_path or not vrt_path.exists():
        return Response(status_code=404, ...)

Returns `some path` when the handler proceeds, `none` when it 404s. -/
def findVrt (fs : FS) (root : FPath) (dataset : String) : Option FPath :=
  let exact := root ++ [dataset ++ ".vrt"]
  let vrtPath :=
    if fs.hasFile exact then some exact
    else (globNamed fs root (dataset ++ ".vrt")).head?
  match vrtPath with
  | none => none
  | some p => if fs.hasFile p then some p else none

/-- The exception taxonomy of the tile handlers' `try`/`except` blocks:
`rio_tiler.errors.TileOutsideBounds` is caught first, any other
exception (with its `str(e)` message) second. -/
inductive Exn where
  | tileOutsideBounds
  | other (msg : String)
deriving Repr, DecidableEq

/-- Model of `info.bounds`: the dataset bounding box, 4 numeric extents. -/
structure BBox where
  minx : ℚ
  miny : ℚ
  maxx : ℚ
  maxy : ℚ
deriving Repr, DecidableEq

/-- The snapshot returned by `src.info()`.  `minzoomAttr`/`maxzoomAttr`
are `none` when the reader's info object lacks the attribute, matching
`getattr(info, "minzoom", 0)` / `getattr(info, "maxzoom", 22)`. -/
structure RasterInfo where
  bounds : BBox
  crs : String
  width : Nat
  height : Nat
  bandMetadata : List (Nat × String)
  bandDescriptions : List (Nat × String)
  dtype : String
  minzoomAttr : Option Int
  maxzoomAttr : Option Int
deriving Repr, DecidableEq

/-- The external raster collaborator, parameterized by the opaque decoded
tile image type `Img`:

* `info p` models `Reader(str(p)).info()`;
* `tile p x y z ts` models opening `Reader(str(p))` and calling
  `src.tile(x, y, z, tilesize=ts)` — an `Except.error` is an exception
  raised while opening or decoding;
* `render img fmt q` models `img.render(img_format=fmt, quality=q)`
  (`q = none` when no quality argument is passed) — an `Except.error` is
  an exception raised while encoding. -/
structure RasterEnv (Img : Type) where
  info : FPath → RasterInfo
  tile : FPath → Int → Int → Int → Nat → Except Exn Img
  render : Img → String → Option Nat → Except Exn String

/-- An HTTP response: status, body, media type, extra headers. -/
structure HResp where
  status : Nat
  content : String
  mediaType : Option String
  headers : List (String × String)
deriving Repr, DecidableEq

deriving instance DecidableEq for Except

/-- Model of `Response(status_code=404, content=f"Dataset {dataset} not found")`. -/
def resp404 (dataset : String) : HResp :=
  ⟨404, "Dataset " ++ dataset ++ " not found", none, []⟩

/-- The JSON object returned by `/datasets/{dataset}/info`. -/
structure InfoResp where
  name : String
  bounds : BBox
  crs : String
  width : Nat
  height : Nat
  bandMetadata : List (Nat × String)
  bandDescriptions : List (Nat × String)
  dtype : String
  minzoom : Int
  maxzoom : Int
deriving Repr, DecidableEq

/-- Handler of `GET /datasets/{dataset}/info` (`main.py` 47-70).
`.error r` is an early `return Response(...)`. -/
def datasetInfo {Img : Type} (env : RasterEnv Img) (fs : FS) (root : FPath)
    (dataset : String) : Except HResp InfoResp :=
  match findVrt fs root dataset with
  | none => .error (resp404 dataset)
  | some p =>
    let info := env.info p
    .ok ⟨dataset, info.bounds, info.crs, info.width, info.height,
         info.bandMetadata, info.bandDescriptions, info.dtype,
         info.minzoomAttr.getD 0, info.maxzoomAttr.getD 22⟩

/-- The JSON object returned by `/datasets/{dataset}/bounds`. -/
structure BoundsResp where
  bounds : List ℚ
  center : List ℚ
  minzoom : Int
  maxzoom : Int
deriving Repr, DecidableEq

/-- Handler of `GET /datasets/{dataset}/bounds` (`main.py` 73-91). -/
def datasetBounds {Img : Type} (env : RasterEnv Img) (fs : FS) (root : FPath)
    (dataset : String) : Except HResp BoundsResp :=
  match findVrt fs root dataset with
  | none => .error (resp404 dataset)
  | some p =>
    let info := env.info p
    let bounds := info.bounds
    .ok ⟨[bounds.minx, bounds.miny, bounds.maxx, bounds.maxy],
         [(bounds.minx + bounds.maxx) / 2, (bounds.miny + bounds.maxy) / 2],
         info.minzoomAttr.getD 0, info.maxzoomAttr.getD 22⟩

/-- The JSON object returned by `/datasets/{dataset}/tilejson.json`. -/
structure TileJSONResp where
  tilejson : String
  name : String
  tiles : List String
  bounds : List ℚ
  center : List ℚ
  minzoom : Int
  maxzoom : Int
deriving Repr, DecidableEq

/-- The tile URL template
`f"/datasets/{dataset}/tiles/{{z}}/{{x}}/{{y}}.{tile_format}"`:
literal `{z}/{x}/{y}` placeholders with the format substituted. -/
def tileTemplate (dataset tileFormat : String) : String :=
  "/datasets/" ++ dataset ++ "/tiles/\x7bz\x7d/\x7bx\x7d/\x7by\x7d." ++ tileFormat

/-- Handler of `GET /datasets/{dataset}/tilejson.json` (`main.py` 94-119). -/
def tilejson {Img : Type} (env : RasterEnv Img) (fs : FS) (root : FPath)
    (dataset : String) (tileFormat : String) : Except HResp TileJSONResp :=
  match findVrt fs root dataset with
  | none => .error (resp404 dataset)
  | some p =>
    let info := env.info p
    let bounds := info.bounds
    .ok ⟨"3.0.0", dataset,
         [tileTemplate dataset tileFormat],
         [bounds.minx, bounds.miny, bounds.maxx, bounds.maxy],
         [(bounds.minx + bounds.maxx) / 2, (bounds.miny + bounds.maxy) / 2, 15],
         info.minzoomAttr.getD 0, info.maxzoomAttr.getD 22⟩

/-- One entry of the `/datasets` listing: `{"name": vrt.stem,
"path": str(vrt.relative_to(DATA_DIR))}`. -/
structure DatasetEntry where
  name : String
  path : String
deriving Repr, DecidableEq

/-- Handler of `GET /datasets` (`main.py` 35-44): enumerate `**/*.vrt`,
sort by `stem` (Python `sorted` with a key: a stable sort), and project
each path to its `{name, path}` entry. -/
def listDatasets (fs : FS) (root : FPath) : List DatasetEntry :=
  ((globVrts fs root).mergeSort (fun a b => decide (pathStem a ≤ pathStem b))).map
    (fun p => ⟨pathStem p, relPathStr root p⟩)

/-- The cache header attached to successful tile responses. -/
def cacheHeaders : List (String × String) :=
  [("Cache-Control", "public, max-age=3600")]

/-- The body of the `try:` block of `GET
/datasets/{dataset}/tiles/{z}/{x}/{y}.{format}` (`main.py` 138-161):
fetch the tile at tilesize 256, pick the encoder and media type from
`format` (with PNG as the fallback), return the 200 response.  An
`Except.error` is an exception escaping the block. -/
def tileBody {Img : Type} (env : RasterEnv Img) (p : FPath)
    (z x y : Int) (format : String) : Except Exn HResp := do
  let img ← env.tile p x y z 256
  if format == "png" then
    let content ← env.render img "PNG" none
    pure ⟨200, content, some "image/png", cacheHeaders⟩
  else if format == "jpg" || format == "jpeg" then
    let content ← env.render img "JPEG" (some 85)
    pure ⟨200, content, some "image/jpeg", cacheHeaders⟩
  else if format == "webp" then
    let content ← env.render img "WEBP" (some 85)
    pure ⟨200, content, some "image/webp", cacheHeaders⟩
  else
    let content ← env.render img "PNG" none
    pure ⟨200, content, some "image/png", cacheHeaders⟩

/-- Handler of `GET /datasets/{dataset}/tiles/{z}/{x}/{y}.{format}`
(`main.py` 122-165): resolve the dataset name (404 on miss), then run the
`try:` block, catching `TileOutsideBounds` as an empty 204 first and any
other exception as a 500 carrying `str(e)` second. -/
def getTile {Img : Type} (env : RasterEnv Img) (fs : FS) (root : FPath)
    (dataset : String) (z x y : Int) (format : String) : HResp :=
  match findVrt fs root dataset with
  | none => resp404 dataset
  | some p =>
    match tileBody env p z x y format with
    | .ok r => r
    | .error .tileOutsideBounds => ⟨204, "", none, []⟩
    | .error (.other m) => ⟨500, m, none, []⟩

/-- Splits a character list at `/` separators. -/
def splitSlash : List Char → List (List Char)
  | [] => [[]]
  | c :: rest =>
    let r := splitSlash rest
    if c = '/' then [] :: r
    else (c :: r.headD []) :: r.tail

/-- Model of `Path(url)`: the url string's nonempty `/`-separated
components (`main.py` 180-183). -/
def splitPath (s : String) : FPath :=
  ((splitSlash s.toList).map (fun cs => String.mk cs)).filter (fun c => c ≠ "")

/-- Model of `url.startswith("/")`: the first character is a slash. -/
def startsWithSlash (s : String) : Bool :=
  s.toList.head? == some '/'

/-- The path the `/tiles/...` endpoint opens for a given `url` query
parameter (`main.py` 180-183): an absolute url as-is, a relative one
joined under the data dir. -/
def urlVrtPath (root : FPath) (url : String) : FPath :=
  if startsWithSlash url then splitPath url else root ++ splitPath url

/-- The body of the `try:` block of `GET /tiles/{z}/{x}/{y}.{format}`
(`main.py` 188-211), textually identical to the one at lines 138-161. -/
def tileBodyByUrl {Img : Type} (env : RasterEnv Img) (p : FPath)
    (z x y : Int) (format : String) : Except Exn HResp := do
  let img ← env.tile p x y z 256
  if format == "png" then
    let content ← env.render img "PNG" none
    pure ⟨200, content, some "image/png", cacheHeaders⟩
  else if format == "jpg" || format == "jpeg" then
    let content ← env.render img "JPEG" (some 85)
    pure ⟨200, content, some "image/jpeg", cacheHeaders⟩
  else if format == "webp" then
    let content ← env.render img "WEBP" (some 85)
    pure ⟨200, content, some "image/webp", cacheHeaders⟩
  else
    let content ← env.render img "PNG" none
    pure ⟨200, content, some "image/png", cacheHeaders⟩

/-- Handler of `GET /tiles/{z}/{x}/{y}.{format}` (`main.py` 168-215):
400 when `url` is missing/empty, the raw path (absolute as-is, relative
joined under the data dir) otherwise, 404 when it does not exist, then
the same `try:` block and exception mapping as the name-based endpoint. -/
def getTileByUrl {Img : Type} (env : RasterEnv Img) (fs : FS) (root : FPath)
    (z x y : Int) (format : String) (url : String) : HResp :=
  if url == "" then ⟨400, "url parameter required", none, []⟩
  else if !fs.hasFile (urlVrtPath root url) then
    ⟨404, "File not found: " ++ url, none, []⟩
  else
    match tileBodyByUrl env (urlVrtPath root url) z x y format with
    | .ok r => r
    | .error .tileOutsideBounds => ⟨204, "", none, []⟩
    | .error (.other m) => ⟨500, m, none, []⟩

/-! ### Shared lemmas and concrete fixtures -/

/-- The two `try:` blocks (`main.py` 138-161 and 188-211) are textually
identical, so their embeddings agree. -/
theorem tileBody_eq_byUrl {Img : Type} (env : RasterEnv Img) (p : FPath)
    (z x y : Int) (format : String) :
    tileBody env p z x y format = tileBodyByUrl env p z x y format := rfl

theorem mem_of_mem_globNamed {fs : FS} {root : FPath} {fname : String} {p : FPath}
    (h : p ∈ globNamed fs root fname) : p ∈ fs.files := by
  unfold globNamed at h
  exact (List.mem_filter.mp h).1

theorem hasFile_of_mem {fs : FS} {p : FPath} (hwf : fs.wf = true)
    (h : p ∈ fs.files) : fs.hasFile p = true := by
  unfold FS.wf at hwf
  have hres : resolvePath p = p := by
    have := (List.all_eq_true.mp hwf) p h
    simpa using this
  unfold FS.hasFile
  rw [hres]
  simpa using h

/-- A successful resolution always names an existing file (the source
re-checks `vrt_path.exists()` before proceeding). -/
theorem findVrt_hasFile {fs : FS} {root : FPath} {dataset : String} {p : FPath}
    (h : findVrt fs root dataset = some p) : fs.hasFile p = true := by
  unfold findVrt at h
  by_cases h1 : fs.hasFile (root ++ [dataset ++ ".vrt"])
  · simp only [h1, if_true] at h
    injection h with h2
    exact h2 ▸ h1
  · simp only [h1, if_false, Bool.false_eq_true] at h
    cases hh : (globNamed fs root (dataset ++ ".vrt")).head? with
    | none => rw [hh] at h; exact absurd h (by simp)
    | some q =>
      rw [hh] at h
      by_cases h2 : fs.hasFile q
      · simp only [h2, if_true] at h
        injection h with h3
        exact h3 ▸ h2
      · simp only [h2, if_false, Bool.false_eq_true] at h
        exact absurd h (by simp)

def demoRoot : FPath := ["data"]

def demoFS : FS := ⟨[["data", "demo.vrt"], ["data", "sub", "deep.vrt"]]⟩

def demoInfo : RasterInfo :=
  ⟨⟨0, 0, 10, 20⟩, "EPSG:4326", 100, 200, [(1, "b1")], [(1, "band one")],
   "uint8", none, none⟩

/-- An oracle whose tile and render steps always succeed. -/
def demoEnvOk : RasterEnv Nat :=
  ⟨fun _ => demoInfo, fun _ _ _ _ _ => .ok 7, fun _ f _ => .ok ("IMG-" ++ f)⟩

/-- An oracle whose tile step always raises `TileOutsideBounds`. -/
def demoEnvOOB : RasterEnv Nat :=
  ⟨fun _ => demoInfo, fun _ _ _ _ _ => .error .tileOutsideBounds,
   fun _ f _ => .ok ("IMG-" ++ f)⟩

/-- An oracle whose tile step raises a generic exception. -/
def demoEnvTileErr : RasterEnv Nat :=
  ⟨fun _ => demoInfo, fun _ _ _ _ _ => .error (.other "boom"),
   fun _ f _ => .ok ("IMG-" ++ f)⟩

/-- An oracle whose render step raises a generic exception. -/
def demoEnvRenderErr : RasterEnv Nat :=
  ⟨fun _ => demoInfo, fun _ _ _ _ _ => .ok 7,
   fun _ _ _ => .error (.other "encode failed")⟩

/-! ### The claims -/

def starFS : FS := ⟨[["data", "a.vrt"]]⟩

/-- C1 counterexample: the recursive search interpolates the dataset name
into a glob pattern, so fnmatch metacharacters in the name act as
wildcards.  With only `/data/a.vrt` present — no file named `*.vrt` —
the name `*` resolves to `a.vrt` and the endpoints serve it, instead of
the 404 naming `*` that the claim requires when no file named `<n>.vrt`
exists. -/
theorem c1_glob_metachar_counterexample :
    (∀ p ∈ starFS.files, p.getLastD "" ≠ "*.vrt") ∧
    starFS.hasFile ["data", "*.vrt"] = false ∧
    findVrt starFS demoRoot "*" = some ["data", "a.vrt"] ∧
    datasetInfo demoEnvOk starFS demoRoot "*" ≠ .error (resp404 "*") ∧
    (getTile demoEnvOk starFS demoRoot "*" 0 0 0 "png").status = 200 := by
  refine ⟨?_, ?_, ?_, ?_, ?_⟩ <;> decide

/-- C1 (amended): every name-based endpoint (info, bounds, tilejson,
tile-by-name) resolves a dataset name by first checking
`<root>/<name>.vrt` for literal existence and otherwise taking the first
match of a recursive glob search for the pattern `<name>.vrt` under
root, in which fnmatch metacharacters occurring in the name are
interpreted as wildcards — so any file the glob branch resolves has a
final component fnmatch-matching the pattern, and for names without
metacharacters the search is exactly for a file named `<name>.vrt`;
when neither check yields an existing file, the endpoint returns a 404
response whose body contains the requested name. -/
theorem c1_name_resolution_amended {Img : Type} (env : RasterEnv Img) (fs : FS)
    (root : FPath) (dataset : String) (z x y : Int) (format : String) :
    (fs.hasFile (root ++ [dataset ++ ".vrt"]) = true →
      findVrt fs root dataset = some (root ++ [dataset ++ ".vrt"])) ∧
    (fs.wf = true → fs.hasFile (root ++ [dataset ++ ".vrt"]) = false →
      findVrt fs root dataset = (globNamed fs root (dataset ++ ".vrt")).head?) ∧
    (∀ p, findVrt fs root dataset = some p →
      p = root ++ [dataset ++ ".vrt"] ∨
      fnmatchChars (dataset ++ ".vrt").toList (p.getLastD "").toList = true) ∧
    (findVrt fs root dataset = none →
      datasetInfo env fs root dataset = .error (resp404 dataset) ∧
      datasetBounds env fs root dataset = .error (resp404 dataset) ∧
      tilejson env fs root dataset format = .error (resp404 dataset) ∧
      getTile env fs root dataset z x y format = resp404 dataset ∧
      (resp404 dataset).status = 404 ∧
      ∃ pre post, (resp404 dataset).content = pre ++ dataset ++ post) := by
  refine ⟨fun h1 => ?_, fun hwf h1 => ?_, fun p hp => ?_, fun hmiss => ?_⟩
  · unfold findVrt
    simp [h1]
  · unfold findVrt
    simp only [h1, if_false, Bool.false_eq_true]
    cases hh : (globNamed fs root (dataset ++ ".vrt")).head? with
    | none => simp
    | some q =>
      have hq : q ∈ fs.files :=
        mem_of_mem_globNamed (List.mem_of_mem_head? hh)
      simp [hasFile_of_mem hwf hq]
  · unfold findVrt at hp
    by_cases h1 : fs.hasFile (root ++ [dataset ++ ".vrt"])
    · simp only [h1, if_true] at hp
      injection hp with h2
      exact Or.inl h2.symm
    · simp only [h1, if_false, Bool.false_eq_true] at hp
      cases hh : (globNamed fs root (dataset ++ ".vrt")).head? with
      | none => rw [hh] at hp; exact absurd hp (by simp)
      | some q =>
        rw [hh] at hp
        by_cases h2 : fs.hasFile q
        · simp only [h2, if_true] at hp
          injection hp with h3
          subst h3
          have hmem : q ∈ globNamed fs root (dataset ++ ".vrt") :=
            List.mem_of_mem_head? hh
          unfold globNamed at hmem
          have hpred := (List.mem_filter.mp hmem).2
          rw [Bool.and_eq_true] at hpred
          exact Or.inr hpred.2
        · simp only [h2, if_false, Bool.false_eq_true] at hp
          exact absurd hp (by simp)
  · refine ⟨?_, ?_, ?_, ?_, rfl, "Dataset ", " not found", rfl⟩
    · unfold datasetInfo; rw [hmiss]
    · unfold datasetBounds; rw [hmiss]
    · unfold tilejson; rw [hmiss]
    · unfold getTile; rw [hmiss]

/-- Witness for C1 (amended) at a concrete filesystem: the name `missing`
resolves to nothing and the info and tile endpoints 404 with the name in
the body, while the metacharacter-free name `deep` resolves through the
recursive glob. -/
theorem c1_name_resolution_amended_witness :
    datasetInfo demoEnvOk demoFS demoRoot "missing" = .error (resp404 "missing") ∧
    getTile demoEnvOk demoFS demoRoot "missing" 0 0 0 "png" = resp404 "missing" ∧
    findVrt demoFS demoRoot "deep" = some ["data", "sub", "deep.vrt"] := by
  have h := c1_name_resolution_amended demoEnvOk demoFS demoRoot "missing" 0 0 0 "png"
  have h4 := h.2.2.2 (by decide)
  have hdeep := (c1_name_resolution_amended demoEnvOk demoFS demoRoot "deep"
    0 0 0 "png").2.1 (by decide) (by decide)
  exact ⟨h4.1, h4.2.2.2.1, by rw [hdeep]; decide⟩

/-- C2: on either tile endpoint, once the dataset/path resolves, the
outcome is tri-state: a `TileOutsideBounds` signal yields an empty 204;
any other failure during open/decode/encode instead yields a 500 whose
body is the failure's message. -/
theorem c2_tile_tristate {Img : Type} (env : RasterEnv Img) (fs : FS)
    (root : FPath) (dataset url : String) (p q : FPath) (z x y : Int)
    (format : String)
    (hname : findVrt fs root dataset = some p)
    (hurl : url ≠ "")
    (hq : urlVrtPath root url = q)
    (hqex : fs.hasFile q = true) :
    (∀ e, env.tile p x y z 256 = .error e →
      tileBody env p z x y format = .error e) ∧
    (tileBody env p z x y format = .error .tileOutsideBounds →
      getTile env fs root dataset z x y format = ⟨204, "", none, []⟩) ∧
    (∀ m, tileBody env p z x y format = .error (.other m) →
      getTile env fs root dataset z x y format = ⟨500, m, none, []⟩) ∧
    (tileBodyByUrl env q z x y format = .error .tileOutsideBounds →
      getTileByUrl env fs root z x y format url = ⟨204, "", none, []⟩) ∧
    (∀ m, tileBodyByUrl env q z x y format = .error (.other m) →
      getTileByUrl env fs root z x y format url = ⟨500, m, none, []⟩) := by
  have hu : (url == "") = false := beq_eq_false_iff_ne.mpr hurl
  refine ⟨fun e he => ?_, fun h => ?_, fun m h => ?_, fun h => ?_, fun m h => ?_⟩
  · unfold tileBody
    rw [he]
    rfl
  · simp [getTile, hname, h]
  · simp [getTile, hname, h]
  · simp [getTileByUrl, hu, hq, hqex, h]
  · simp [getTileByUrl, hu, hq, hqex, h]

/-- Witness for C2 at concrete oracles: out-of-bounds gives an empty 204
on the name-based endpoint, a generic failure gives a 500 with its
message on the path-based endpoint. -/
theorem c2_tile_tristate_witness :
    getTile demoEnvOOB demoFS demoRoot "demo" 1 2 3 "png" = ⟨204, "", none, []⟩ ∧
    getTileByUrl demoEnvTileErr demoFS demoRoot 1 2 3 "png" "demo.vrt" =
      ⟨500, "boom", none, []⟩ := by
  have h1 := c2_tile_tristate demoEnvOOB demoFS demoRoot "demo" "demo.vrt"
    ["data", "demo.vrt"] ["data", "demo.vrt"] 1 2 3 "png"
    (by decide) (by decide) (by decide) (by decide)
  have h2 := c2_tile_tristate demoEnvTileErr demoFS demoRoot "demo" "demo.vrt"
    ["data", "demo.vrt"] ["data", "demo.vrt"] 1 2 3 "png"
    (by decide) (by decide) (by decide) (by decide)
  exact ⟨h1.2.1 (by decide), h2.2.2.2.2 "boom" (by decide)⟩

/-- C3: on a successful render on either tile endpoint, the format token
selects the encoder and media type (`png` → PNG / `image/png`; `jpg` or
`jpeg` → JPEG quality 85 / `image/jpeg`; `webp` → WEBP quality 85 /
`image/webp`; anything else → PNG / `image/png`), and the response
carries `Cache-Control: public, max-age=3600`. -/
theorem c3_format_selection {Img : Type} (env : RasterEnv Img) (fs : FS)
    (root : FPath) (dataset url : String) (p q : FPath) (z x y : Int)
    (format : String) (img : Img) (bytes : String)
    (hname : findVrt fs root dataset = some p)
    (hurl : url ≠ "")
    (hq : urlVrtPath root url = q)
    (hqex : fs.hasFile q = true)
    (hp : env.tile p x y z 256 = .ok img)
    (hqt : env.tile q x y z 256 = .ok img) :
    (format = "png" → env.render img "PNG" none = .ok bytes →
      getTile env fs root dataset z x y format =
        ⟨200, bytes, some "image/png", cacheHeaders⟩ ∧
      getTileByUrl env fs root z x y format url =
        ⟨200, bytes, some "image/png", cacheHeaders⟩) ∧
    ((format = "jpg" ∨ format = "jpeg") →
      env.render img "JPEG" (some 85) = .ok bytes →
      getTile env fs root dataset z x y format =
        ⟨200, bytes, some "image/jpeg", cacheHeaders⟩ ∧
      getTileByUrl env fs root z x y format url =
        ⟨200, bytes, some "image/jpeg", cacheHeaders⟩) ∧
    (format = "webp" → env.render img "WEBP" (some 85) = .ok bytes →
      getTile env fs root dataset z x y format =
        ⟨200, bytes, some "image/webp", cacheHeaders⟩ ∧
      getTileByUrl env fs root z x y format url =
        ⟨200, bytes, some "image/webp", cacheHeaders⟩) ∧
    (format ≠ "png" → format ≠ "jpg" → format ≠ "jpeg" → format ≠ "webp" →
      env.render img "PNG" none = .ok bytes →
      getTile env fs root dataset z x y format =
        ⟨200, bytes, some "image/png", cacheHeaders⟩ ∧
      getTileByUrl env fs root z x y format url =
        ⟨200, bytes, some "image/png", cacheHeaders⟩) := by
  have hu : (url == "") = false := beq_eq_false_iff_ne.mpr hurl
  refine ⟨fun hf hr => ?_, fun hf hr => ?_, fun hf hr => ?_,
          fun f1 f2 f3 f4 hr => ?_⟩
  · subst hf
    constructor
    · simp [getTile, hname, tileBody, hp, hr, Bind.bind, Except.bind,
        Functor.map, Except.map, Pure.pure, Except.pure]
    · simp [getTileByUrl, hu, hq, hqex, tileBodyByUrl, hqt, hr, Bind.bind,
        Except.bind, Functor.map, Except.map, Pure.pure, Except.pure]
  · rcases hf with hf | hf <;> subst hf <;> constructor
    · simp [getTile, hname, tileBody, hp, hr, Bind.bind, Except.bind,
        Functor.map, Except.map, Pure.pure, Except.pure]
    · simp [getTileByUrl, hu, hq, hqex, tileBodyByUrl, hqt, hr, Bind.bind,
        Except.bind, Functor.map, Except.map, Pure.pure, Except.pure]
    · simp [getTile, hname, tileBody, hp, hr, Bind.bind, Except.bind,
        Functor.map, Except.map, Pure.pure, Except.pure]
    · simp [getTileByUrl, hu, hq, hqex, tileBodyByUrl, hqt, hr, Bind.bind,
        Except.bind, Functor.map, Except.map, Pure.pure, Except.pure]
  · subst hf
    constructor
    · simp [getTile, hname, tileBody, hp, hr, Bind.bind, Except.bind,
        Functor.map, Except.map, Pure.pure, Except.pure]
    · simp [getTileByUrl, hu, hq, hqex, tileBodyByUrl, hqt, hr, Bind.bind,
        Except.bind, Functor.map, Except.map, Pure.pure, Except.pure]
  · have b1 : (format == "png") = false := beq_eq_false_iff_ne.mpr f1
    have b2 : (format == "jpg") = false := beq_eq_false_iff_ne.mpr f2
    have b3 : (format == "jpeg") = false := beq_eq_false_iff_ne.mpr f3
    have b4 : (format == "webp") = false := beq_eq_false_iff_ne.mpr f4
    constructor
    · simp [getTile, hname, tileBody, hp, hr, b1, b2, b3, b4, Bind.bind,
        Except.bind, Functor.map, Except.map, Pure.pure, Except.pure]
    · simp [getTileByUrl, hu, hq, hqex, tileBodyByUrl, hqt, hr, b1, b2, b3,
        b4, Bind.bind, Except.bind, Functor.map, Except.map, Pure.pure,
        Except.pure]

/-- Witness for C3 at a concrete oracle: the unrecognized token `bmp`
falls back to PNG with media type `image/png` and the cache header. -/
theorem c3_format_selection_witness :
    getTile demoEnvOk demoFS demoRoot "demo" 1 2 3 "bmp" =
      ⟨200, "IMG-PNG", some "image/png", cacheHeaders⟩ ∧
    getTileByUrl demoEnvOk demoFS demoRoot 1 2 3 "bmp" "demo.vrt" =
      ⟨200, "IMG-PNG", some "image/png", cacheHeaders⟩ := by
  have h := c3_format_selection demoEnvOk demoFS demoRoot "demo" "demo.vrt"
    ["data", "demo.vrt"] ["data", "demo.vrt"] 1 2 3 "bmp" 7 "IMG-PNG"
    (by decide) (by decide) (by decide) (by decide) (by decide) (by decide)
  exact h.2.2.2 (by decide) (by decide) (by decide) (by decide) (by decide)

/-- C4: the path-based tile endpoint returns 400 on a missing/empty `url`;
otherwise an absolute url (leading `/`) is used as the file path as-is and
a relative url is joined under the root directory; a resolved path that
does not exist on disk gives a 404 whose body names the url. -/
theorem c4_url_endpoint {Img : Type} (env : RasterEnv Img) (fs : FS)
    (root : FPath) (z x y : Int) (format : String) (url : String) :
    (getTileByUrl env fs root z x y format "" =
      ⟨400, "url parameter required", none, []⟩) ∧
    (startsWithSlash url = true → urlVrtPath root url = splitPath url) ∧
    (startsWithSlash url = false → urlVrtPath root url = root ++ splitPath url) ∧
    (url ≠ "" → fs.hasFile (urlVrtPath root url) = false →
      getTileByUrl env fs root z x y format url =
        ⟨404, "File not found: " ++ url, none, []⟩ ∧
      ∃ pre, "File not found: " ++ url = pre ++ url) := by
  refine ⟨rfl, fun h => ?_, fun h => ?_, fun hurl hmiss => ?_⟩
  · simp [urlVrtPath, h]
  · simp [urlVrtPath, h]
  · have hu : (url == "") = false := beq_eq_false_iff_ne.mpr hurl
    exact ⟨by simp [getTileByUrl, hu, hmiss], "File not found: ", rfl⟩

/-- Witness for C4: an empty url gives 400, a url naming a nonexistent
file gives a 404 whose body names the url. -/
theorem c4_url_endpoint_witness :
    getTileByUrl demoEnvOk demoFS demoRoot 0 0 0 "png" "" =
      ⟨400, "url parameter required", none, []⟩ ∧
    getTileByUrl demoEnvOk demoFS demoRoot 0 0 0 "png" "nope.vrt" =
      ⟨404, "File not found: nope.vrt", none, []⟩ := by
  have h := c4_url_endpoint demoEnvOk demoFS demoRoot 0 0 0 "png" "nope.vrt"
  exact ⟨h.1, (h.2.2.2 (by decide) (by decide)).1⟩

/-- C5: when the name-based and the path-based tile endpoints resolve to
the same file, they produce identical responses (same status, body and
media type) for the same tile coordinates and format. -/
theorem c5_endpoints_agree {Img : Type} (env : RasterEnv Img) (fs : FS)
    (root : FPath) (dataset url : String) (p : FPath) (z x y : Int)
    (format : String)
    (hname : findVrt fs root dataset = some p)
    (hurl : url ≠ "")
    (hpath : urlVrtPath root url = p) :
    getTile env fs root dataset z x y format =
      getTileByUrl env fs root z x y format url := by
  have hu : (url == "") = false := beq_eq_false_iff_ne.mpr hurl
  have hex : fs.hasFile p = true := findVrt_hasFile hname
  simp [getTile, getTileByUrl, hname, hu, hpath, hex, ← tileBody_eq_byUrl]

/-- Witness for C5: the dataset name `demo` and the relative url
`demo.vrt` reference the same file and yield the same response. -/
theorem c5_endpoints_agree_witness :
    getTile demoEnvOk demoFS demoRoot "demo" 4 5 6 "webp" =
      getTileByUrl demoEnvOk demoFS demoRoot 4 5 6 "webp" "demo.vrt" :=
  c5_endpoints_agree demoEnvOk demoFS demoRoot "demo" "demo.vrt"
    ["data", "demo.vrt"] 4 5 6 "webp" (by decide) (by decide) (by decide)

/-- C6: for a dataset name that resolves, the info and the bounds
endpoints report the same bounds 4-tuple and the same minzoom/maxzoom,
with minzoom defaulting to 0 and maxzoom to 22 when the reader supplies
none. -/
theorem c6_info_bounds_consistent {Img : Type} (env : RasterEnv Img) (fs : FS)
    (root : FPath) (dataset : String) (p : FPath)
    (hname : findVrt fs root dataset = some p) :
    ∃ i b, datasetInfo env fs root dataset = .ok i ∧
      datasetBounds env fs root dataset = .ok b ∧
      b.bounds = [i.bounds.minx, i.bounds.miny, i.bounds.maxx, i.bounds.maxy] ∧
      b.minzoom = i.minzoom ∧ b.maxzoom = i.maxzoom ∧
      ((env.info p).minzoomAttr = none → i.minzoom = 0) ∧
      ((env.info p).maxzoomAttr = none → i.maxzoom = 22) := by
  refine ⟨⟨dataset, (env.info p).bounds, (env.info p).crs, (env.info p).width,
          (env.info p).height, (env.info p).bandMetadata,
          (env.info p).bandDescriptions, (env.info p).dtype,
          (env.info p).minzoomAttr.getD 0, (env.info p).maxzoomAttr.getD 22⟩,
         ⟨[(env.info p).bounds.minx, (env.info p).bounds.miny,
           (env.info p).bounds.maxx, (env.info p).bounds.maxy],
          [((env.info p).bounds.minx + (env.info p).bounds.maxx) / 2,
           ((env.info p).bounds.miny + (env.info p).bounds.maxy) / 2],
          (env.info p).minzoomAttr.getD 0, (env.info p).maxzoomAttr.getD 22⟩,
         ?_, ?_, rfl, rfl, rfl, fun h => by simp [h], fun h => by simp [h]⟩
  · unfold datasetInfo
    rw [hname]
  · unfold datasetBounds
    rw [hname]

/-- Witness for C6 at the concrete fixture dataset. -/
theorem c6_info_bounds_consistent_witness :
    ∃ i b, datasetInfo demoEnvOk demoFS demoRoot "demo" = .ok i ∧
      datasetBounds demoEnvOk demoFS demoRoot "demo" = .ok b ∧
      b.bounds = [i.bounds.minx, i.bounds.miny, i.bounds.maxx, i.bounds.maxy] ∧
      b.minzoom = i.minzoom ∧ b.maxzoom = i.maxzoom ∧
      ((demoEnvOk.info ["data", "demo.vrt"]).minzoomAttr = none → i.minzoom = 0) ∧
      ((demoEnvOk.info ["data", "demo.vrt"]).maxzoomAttr = none → i.maxzoom = 22) :=
  c6_info_bounds_consistent demoEnvOk demoFS demoRoot "demo"
    ["data", "demo.vrt"] (by decide)

def dupFS1 : FS := ⟨[["data", "a", "x.vrt"], ["data", "b", "x.vrt"]]⟩

def dupFS2 : FS := ⟨[["data", "b", "x.vrt"], ["data", "a", "x.vrt"]]⟩

/-- C7 counterexample: two directory states holding the same set of .vrt
files but enumerated in different orders produce different listings — the
sort is stable, so two files sharing the derived name `x` keep their
enumeration order.  The listing is therefore not independent of
filesystem enumeration order. -/
theorem c7_listing_counterexample :
    dupFS2.files = dupFS1.files.reverse ∧
    listDatasets dupFS1 demoRoot = [⟨"x", "a/x.vrt"⟩, ⟨"x", "b/x.vrt"⟩] ∧
    listDatasets dupFS2 demoRoot = [⟨"x", "b/x.vrt"⟩, ⟨"x", "a/x.vrt"⟩] ∧
    listDatasets dupFS1 demoRoot ≠ listDatasets dupFS2 demoRoot := by
  have hx1 : pathStem ["data", "a", "x.vrt"] = "x" := by decide
  have hx2 : pathStem ["data", "b", "x.vrt"] = "x" := by decide
  have hg1 : globVrts dupFS1 demoRoot =
      [["data", "a", "x.vrt"], ["data", "b", "x.vrt"]] := by decide
  have hg2 : globVrts dupFS2 demoRoot =
      [["data", "b", "x.vrt"], ["data", "a", "x.vrt"]] := by decide
  have hs1 : List.Pairwise (fun a b => decide (pathStem a ≤ pathStem b) = true)
      [["data", "a", "x.vrt"], ["data", "b", "x.vrt"]] := by
    refine List.pairwise_cons.mpr ⟨?_, by simp⟩
    intro b hb
    rw [List.mem_singleton] at hb
    subst hb
    rw [hx1, hx2]
    exact decide_eq_true le_rfl
  have hs2 : List.Pairwise (fun a b => decide (pathStem a ≤ pathStem b) = true)
      [["data", "b", "x.vrt"], ["data", "a", "x.vrt"]] := by
    refine List.pairwise_cons.mpr ⟨?_, by simp⟩
    intro b hb
    rw [List.mem_singleton] at hb
    subst hb
    rw [hx2, hx1]
    exact decide_eq_true le_rfl
  have h1 : listDatasets dupFS1 demoRoot = [⟨"x", "a/x.vrt"⟩, ⟨"x", "b/x.vrt"⟩] := by
    unfold listDatasets
    rw [hg1, List.mergeSort_of_sorted hs1]
    decide
  have h2 : listDatasets dupFS2 demoRoot = [⟨"x", "b/x.vrt"⟩, ⟨"x", "a/x.vrt"⟩] := by
    unfold listDatasets
    rw [hg2, List.mergeSort_of_sorted hs2]
    decide
  refine ⟨rfl, h1, h2, ?_⟩
  rw [h1, h2]
  decide

/-- C7 (amended): the dataset listing returns the enumerated .vrt files
sorted by derived name (filename without extension) — stably, so files
sharing a derived name keep their filesystem enumeration order — as a
permutation of the enumerated entries; it never fails, and an empty or
missing root directory yields an empty sequence. -/
theorem c7_listing_amended (fs : FS) (root : FPath) :
    List.Pairwise (fun a b => a.name ≤ b.name) (listDatasets fs root) ∧
    (listDatasets fs root).Perm
      ((globVrts fs root).map (fun p => ⟨pathStem p, relPathStr root p⟩)) ∧
    (fs.files = [] → listDatasets fs root = []) := by
  refine ⟨?_, ?_, fun h => ?_⟩
  · have hs : ((globVrts fs root).mergeSort
        (fun a b => decide (pathStem a ≤ pathStem b))).Pairwise
        (fun a b => decide (pathStem a ≤ pathStem b) = true) :=
      List.sorted_mergeSort
        (fun a b c hab hbc => by
          simp only [decide_eq_true_eq] at hab hbc ⊢
          exact le_trans hab hbc)
        (fun a b => by
          simp only [Bool.or_eq_true, decide_eq_true_eq]
          exact le_total _ _)
        (globVrts fs root)
    unfold listDatasets
    rw [List.pairwise_map]
    exact hs.imp (fun hab => by simpa using hab)
  · unfold listDatasets
    exact (List.mergeSort_perm (globVrts fs root) _).map _
  · simp [listDatasets, globVrts, globNamed, h, List.mergeSort]

/-- Witness for C7 (amended): an empty directory tree yields an empty
dataset listing. -/
theorem c7_listing_amended_witness : listDatasets ⟨[]⟩ demoRoot = [] :=
  (c7_listing_amended ⟨[]⟩ demoRoot).2.2 rfl

/-- C8: for a resolving dataset, the tilejson endpoint returns the version
string 3.0.0, exactly one tile URL template with the requested format
substituted, the dataset's 4-element bounds, and a center that is the
bounds midpoint on both axes followed by the fixed zoom hint 15. -/
theorem c8_tilejson_shape {Img : Type} (env : RasterEnv Img) (fs : FS)
    (root : FPath) (dataset tileFormat : String) (p : FPath)
    (hname : findVrt fs root dataset = some p) :
    tilejson env fs root dataset tileFormat =
      .ok ⟨"3.0.0", dataset,
           ["/datasets/" ++ dataset ++ "/tiles/\x7bz\x7d/\x7bx\x7d/\x7by\x7d."
             ++ tileFormat],
           [(env.info p).bounds.minx, (env.info p).bounds.miny,
            (env.info p).bounds.maxx, (env.info p).bounds.maxy],
           [((env.info p).bounds.minx + (env.info p).bounds.maxx) / 2,
            ((env.info p).bounds.miny + (env.info p).bounds.maxy) / 2, 15],
           (env.info p).minzoomAttr.getD 0, (env.info p).maxzoomAttr.getD 22⟩ := by
  unfold tilejson
  rw [hname]
  rfl

/-- Witness for C8 at the concrete fixture dataset and format `webp`. -/
theorem c8_tilejson_shape_witness :
    tilejson demoEnvOk demoFS demoRoot "demo" "webp" =
      .ok ⟨"3.0.0", "demo",
           ["/datasets/demo/tiles/\x7bz\x7d/\x7bx\x7d/\x7by\x7d.webp"],
           [0, 0, 10, 20], [5, 10, 15], 0, 22⟩ := by
  rw [c8_tilejson_shape demoEnvOk demoFS demoRoot "demo" "webp"
    ["data", "demo.vrt"] (by decide)]
  norm_num [demoEnvOk, demoInfo]
  rfl

/-- C9 counterexample: a request with negative tile coordinates reaches
the tile-rendering step — at `z = -1` the response still depends on the
reader's tile outcome (204 for an out-of-bounds signal, 200 for a
successful render), so negative coordinates are not rejected earlier. -/
theorem c9_negative_counterexample :
    getTile demoEnvOOB demoFS demoRoot "demo" (-1) 0 0 "png" =
      ⟨204, "", none, []⟩ ∧
    getTile demoEnvOk demoFS demoRoot "demo" (-1) 0 0 "png" =
      ⟨200, "IMG-PNG", some "image/png", cacheHeaders⟩ ∧
    getTile demoEnvOOB demoFS demoRoot "demo" (-1) 0 0 "png" ≠
      getTile demoEnvOk demoFS demoRoot "demo" (-1) 0 0 "png" := by
  refine ⟨?_, ?_, ?_⟩ <;> decide

/-- C9 (amended): z, x and y are plain integers — the handlers impose no
sign constraint, so a request with negative z, x or y still reaches the
tile-rendering step whenever the dataset resolves, and its response is
the tri-state mapping of the reader's outcome at those coordinates. -/
theorem c9_negative_reaches_renderer {Img : Type} (env : RasterEnv Img)
    (fs : FS) (root : FPath) (dataset : String) (p : FPath) (z x y : Int)
    (format : String)
    (_hneg : z < 0 ∨ x < 0 ∨ y < 0)
    (hname : findVrt fs root dataset = some p) :
    getTile env fs root dataset z x y format =
      match tileBody env p z x y format with
      | .ok r => r
      | .error .tileOutsideBounds => ⟨204, "", none, []⟩
      | .error (.other m) => ⟨500, m, none, []⟩ := by
  unfold getTile
  rw [hname]

/-- Witness for C9 (amended) at concrete negative coordinates. -/
theorem c9_negative_reaches_renderer_witness :
    getTile demoEnvTileErr demoFS demoRoot "demo" (-1) (-2) (-3) "png" =
      match tileBody demoEnvTileErr ["data", "demo.vrt"] (-1) (-2) (-3) "png" with
      | .ok r => r
      | .error .tileOutsideBounds => ⟨204, "", none, []⟩
      | .error (.other m) => ⟨500, m, none, []⟩ :=
  c9_negative_reaches_renderer demoEnvTileErr demoFS demoRoot "demo"
    ["data", "demo.vrt"] (-1) (-2) (-3) "png" (Or.inl (by decide)) (by decide)

def outsideFS : FS := ⟨[["x.vrt"], ["data", "demo.vrt"]]⟩

/-- An oracle that only renders when the opened path resolves to the file
`/x.vrt` outside the data dir, to observe which file the handler opens. -/
def outsideEnv : RasterEnv Nat :=
  ⟨fun _ => demoInfo,
   fun p _ _ _ _ =>
     if resolvePath p = ["x.vrt"] then .ok 1
     else .error (.other "unexpected path"),
   fun _ f _ => .ok ("IMG-" ++ f)⟩

/-- C10: the path-based tile endpoint does not confine the resolved path
to the root directory: for the relative url `../x.vrt`, the path joined
under `/data` resolves to `/x.vrt` — outside the root tree — and the
handler opens that file and serves the tile. -/
theorem c10_path_traversal :
    resolvePath (urlVrtPath demoRoot "../x.vrt") = ["x.vrt"] ∧
    (resolvePath (urlVrtPath demoRoot "../x.vrt")).take demoRoot.length ≠
      demoRoot ∧
    outsideFS.hasFile (urlVrtPath demoRoot "../x.vrt") = true ∧
    getTileByUrl outsideEnv outsideFS demoRoot 0 0 0 "png" "../x.vrt" =
      ⟨200, "IMG-PNG", some "image/png", cacheHeaders⟩ := by
  refine ⟨?_, ?_, ?_, ?_⟩ <;> decide
